import Mathlib

/-!
Verification development for the pluviorn data-acquisition scripts
(`scripts/fetch-emparn.js` and `scripts/fetch-inmet.js`, the latter bundling a
revised copy of the EMPARN script).

Shallow embedding conventions:
* JavaScript numbers are modelled as `JSNum`: either a finite value (an exact
  rational, standing for the real value the JS double denotes) or one of the
  non-finite values `NaN` / `Infinity` / `-Infinity`.  All rationals are built
  with integer arithmetic and `mkRat`, so every definition evaluates by `decide`.
* `null`/`undefined` inputs are modelled with `Option`.
* Network transports are modelled as functions `String → Resposta`,
  distinguishing a successful response body, a resolved response with a
  non-ok status, and a thrown network failure — the scripts treat the last
  two alike everywhere except inside `fetchHtmlProxy` of the bundled revised
  EMPARN script, whose fallthrough to the `http://` rewrite happens only on
  a resolved non-ok response.  The candidate scan is modelled over
  `Int → Option String` because at that level every failure of one
  identifier's composite fetch is caught alike.
* DOM extraction (cheerio) is an external collaborator: the table parser is
  modelled from the point where the row cell texts are available.
-/

/-- A JavaScript number: finite (exact rational) or one of the non-finite values. -/
inductive JSNum where
  | fin (q : ℚ)
  | nan
  | inf
  | ninf
deriving DecidableEq

/-- JS `Number.isFinite`. -/
def ehFinito : JSNum → Bool
  | .fin _ => true
  | _ => false

/-- A primitive JSON value as delivered by the INMET API: a string or a
(necessarily finite) number.  Missing fields and JSON `null` are modelled by
wrapping in `Option` at use sites. -/
inductive JsonPrim where
  | jstr (s : String)
  | jnum (q : ℚ)
deriving DecidableEq

/-- JS whitespace as recognised by `trim`, `parseFloat` and `Number`
(the common cases: space, tab, line feed, carriage return, vertical tab,
form feed, no-break space). -/
def ehEspacoJS (c : Char) : Bool :=
  c == ' ' || c == '\t' || c == '\n' || c == '\r' || c == '\x0b' || c == '\x0c' || c == ' '

def ehDigito (c : Char) : Bool :=
  '0' ≤ c && c ≤ '9'

def valorDigito (c : Char) : Nat :=
  c.toNat - '0'.toNat

def valorDigitos (cs : List Char) : Nat :=
  cs.foldl (fun a c => a * 10 + valorDigito c) 0

/-- The rational `mant * 10 ^ e10`, built with `mkRat` so that it evaluates
inside the kernel. -/
def decimalPara (mant : Int) (e10 : Int) : ℚ :=
  if 0 ≤ e10 then mkRat (mant * (10 : Int) ^ e10.toNat) 1
  else mkRat mant ((10 : Nat) ^ (-e10).toNat)

/-- Consume an optional leading sign, returning the sign (±1) and the rest. -/
def lerSinal : List Char → Int × List Char
  | '+' :: cs => (1, cs)
  | '-' :: cs => (-1, cs)
  | cs => (1, cs)

/-- `comecaCom p cs` holds when `p` is an initial segment of `cs`. -/
def comecaCom : List Char → List Char → Bool
  | [], _ => true
  | _ :: _, [] => false
  | a :: as, b :: bs => a == b && comecaCom as bs

/-- Read a decimal mantissa `digits [ . digits ]` (at least one digit overall);
returns the integer digits, the fraction digits and the unconsumed rest. -/
def lerMantissa (cs : List Char) : Option (List Char × List Char × List Char) :=
  let p1 := cs.span ehDigito
  match p1.2 with
  | '.' :: r2 =>
    let p2 := r2.span ehDigito
    if p1.1.isEmpty && p2.1.isEmpty then none
    else some (p1.1, p2.1, p2.2)
  | _ => if p1.1.isEmpty then none else some (p1.1, [], p1.2)

/-- Read an exponent suffix `e|E [sign] digits` if present; like JS `parseFloat`
an incomplete exponent is simply ignored (contributes 0). -/
def lerExpoente (cs : List Char) : Int :=
  match cs with
  | c :: t =>
    if c == 'e' || c == 'E' then
      let st := lerSinal t
      let ds := st.2.span ehDigito
      if ds.1.isEmpty then 0 else st.1 * (valorDigitos ds.1 : Int)
    else 0
  | [] => 0

/-- JS `parseFloat`: skip leading whitespace, optional sign, `Infinity` or a
decimal mantissa with optional exponent; the longest valid numeric value of a
string's beginning, `NaN` when there is none.  Trailing garbage is ignored. -/
def parseFloatJS (s : String) : JSNum :=
  let cs := s.data.dropWhile ehEspacoJS
  let sc := lerSinal cs
  if comecaCom "Infinity".data sc.2 then
    (if sc.1 = 1 then JSNum.inf else JSNum.ninf)
  else
    match lerMantissa sc.2 with
    | none => JSNum.nan
    | some m =>
      JSNum.fin (decimalPara (sc.1 * (valorDigitos (m.1 ++ m.2.1) : Int))
        (lerExpoente m.2.2 - (m.2.1.length : Int)))

def ehDigitoHex (c : Char) : Bool :=
  ehDigito c || ('a' ≤ c && c ≤ 'f') || ('A' ≤ c && c ≤ 'F')

def valorDigitoHex (c : Char) : Nat :=
  if ehDigito c then valorDigito c
  else if 'a' ≤ c && c ≤ 'f' then c.toNat - 'a'.toNat + 10
  else c.toNat - 'A'.toNat + 10

def valorBase (b : Nat) (vd : Char → Nat) (cs : List Char) : Nat :=
  cs.foldl (fun a c => a * b + vd c) 0

/-- Decimal/`Infinity` case of JS `Number(string)`: unlike `parseFloat`, the
whole string must be consumed, otherwise the result is `NaN`. -/
def jsNumberDecimal (cs : List Char) : JSNum :=
  let sc := lerSinal cs
  if sc.2 = "Infinity".data then (if sc.1 = 1 then JSNum.inf else JSNum.ninf)
  else
    match lerMantissa sc.2 with
    | none => JSNum.nan
    | some m =>
      match m.2.2 with
      | [] => JSNum.fin (decimalPara (sc.1 * (valorDigitos (m.1 ++ m.2.1) : Int))
          (-(m.2.1.length : Int)))
      | c :: t =>
        if c == 'e' || c == 'E' then
          let st := lerSinal t
          let ds := st.2.span ehDigito
          if ds.1.isEmpty || !ds.2.isEmpty then JSNum.nan
          else JSNum.fin (decimalPara (sc.1 * (valorDigitos (m.1 ++ m.2.1) : Int))
            (st.1 * (valorDigitos ds.1 : Int) - (m.2.1.length : Int)))
        else JSNum.nan

/-- JS `Number(string)` coercion: trim whitespace; empty means `0`; hex, octal
and binary literals; otherwise a fully-consumed signed decimal or `Infinity`. -/
def jsNumber (s : String) : JSNum :=
  let cs := ((s.data.dropWhile ehEspacoJS).reverse.dropWhile ehEspacoJS).reverse
  match cs with
  | [] => JSNum.fin 0
  | '0' :: c :: resto =>
    if c == 'x' || c == 'X' then
      (if !resto.isEmpty && resto.all ehDigitoHex
       then JSNum.fin ((valorBase 16 valorDigitoHex resto : Nat) : ℚ)
       else JSNum.nan)
    else if c == 'o' || c == 'O' then
      (if !resto.isEmpty && resto.all (fun d => '0' ≤ d && d ≤ '7')
       then JSNum.fin ((valorBase 8 valorDigito resto : Nat) : ℚ)
       else JSNum.nan)
    else if c == 'b' || c == 'B' then
      (if !resto.isEmpty && resto.all (fun d => d == '0' || d == '1')
       then JSNum.fin ((valorBase 2 valorDigito resto : Nat) : ℚ)
       else JSNum.nan)
    else jsNumberDecimal cs
  | _ => jsNumberDecimal cs

/-- `String.prototype.replace(/\./g, "")`: delete every dot. -/
def removePontos (cs : List Char) : List Char :=
  cs.filter (fun c => c != '.')

/-- `String.prototype.replace(",", ".")`: replace only the first comma. -/
def trocaPrimeiraVirgula : List Char → List Char
  | [] => []
  | c :: cs => if c == ',' then '.' :: cs else c :: trocaPrimeiraVirgula cs

/-- The Brazilian-locale preprocessing of `parseNumberBR`:
`String(s).replace(/\./g, "").replace(",", ".")`. -/
def trocaBR (s : String) : String :=
  String.mk (trocaPrimeiraVirgula (removePontos s.data))

/-- `parseNumberBR` from `fetch-emparn.js` (identical copy in the bundled
script inside `fetch-inmet.js`): `null`/`undefined` (here `none`) and the empty
string yield `null`; otherwise strip dots, turn the first comma into a dot,
`parseFloat`, and keep the value only when finite. -/
def parseNumberBR (s : Option String) : Option JSNum :=
  match s with
  | none => none
  | some str =>
    if str = "" then none
    else
      let n := parseFloatJS (trocaBR str)
      if ehFinito n then some n else none

/-- JS `String.prototype.trim` (over the modelled whitespace set). -/
def trimJS (s : String) : String :=
  String.mk (((s.data.dropWhile ehEspacoJS).reverse.dropWhile ehEspacoJS).reverse)

/-- `numberOrNull` from `fetch-inmet.js`: `null`/`undefined`/`""` yield `null`;
a string is coerced with `Number` after its first comma becomes a dot; the
value is kept only when finite.  A JSON number round-trips exactly through
`Number(String(v))`, so that case returns the number itself (JSON numbers are
finite). -/
def numberOrNull (v : Option JsonPrim) : Option JSNum :=
  match v with
  | none => none
  | some (.jstr str) =>
    if str = "" then none
    else
      let n := jsNumber (String.mk (trocaPrimeiraVirgula str.data))
      if ehFinito n then some n else none
  | some (.jnum q) => some (JSNum.fin q)

/-!
Identifier resolution (`idDoDia` in both EMPARN scripts).

The script turns the target calendar date into the JS `Date.UTC(y, m-1, d)`
timestamp (milliseconds of the UTC midnight of that civil date), subtracts the
timestamp of the anchor date `BASE_DATE = 2025-10-29`, divides by the length of
a day and applies `Math.round`, then adds `BASE_ID`.  `Date.UTC` is a host
function; it is modelled by the standard proleptic-Gregorian day count
(`diasDesdeCivil`, days since 1970-01-01).  `Date.UTC` normalises an
out-of-range day of month by rolling into the neighbouring months, which the
day count reproduces because it is linear in `d`; in particular "the next
calendar day" after `(y, m, d)` is exactly `(y, m, d + 1)`.
-/

/-- Days from 1970-01-01 to the civil date `(y, m, d)` in the proleptic
Gregorian calendar (the value of JS `Date.UTC(y, m - 1, d) / 86400000`). -/
def diasDesdeCivil (y m d : Int) : Int :=
  let ya := if m ≤ 2 then y - 1 else y
  let era := Int.fdiv ya 400
  let yoe := ya - era * 400
  let mp := if m ≤ 2 then m + 9 else m - 3
  let doy := Int.ediv (153 * mp + 2) 5 + d - 1
  let doe := yoe * 365 + Int.ediv yoe 4 - Int.ediv yoe 100 + doy
  era * 146097 + doe - 719468

/-- Milliseconds per day (`1000 * 60 * 60 * 24`). -/
def msPorDia : Int := 86400000

/-- JS `Math.round (a / b)` for `b > 0`: `⌊a / b + 1 / 2⌋`, computed as
`⌊(2 * a + b) / (2 * b)⌋` (integer `/` is Euclidean division, which is floor
division for a positive divisor). -/
def jsRound (a b : Int) : Int :=
  (2 * a + b) / (2 * b)

/-- `BASE_ID = 10965`, the bulletin identifier of the anchor date. -/
def BASE_ID : Int := 10965

/-- `Date.UTC` timestamp of the anchor `BASE_DATE = "2025-10-29"` in days. -/
def diasBase : Int := diasDesdeCivil 2025 10 29

/-- `idDoDia` on a forced civil date `(y, m, d)`:
`BASE_ID + Math.round((Date.UTC(y, m-1, d) - Date.UTC(2025, 9, 29)) / 86400000)`. -/
def idDoDia (y m d : Int) : Int :=
  BASE_ID + jsRound (diasDesdeCivil y m d * msPorDia - diasBase * msPorDia) msPorDia

/-- The candidate identifiers `[idHoje, idHoje - 1, idHoje + 1]` tried by the
main loop of both EMPARN scripts. -/
def candidatos (id : Int) : List Int :=
  [id, id - 1, id + 1]

/-!
Fallback fetch.

`fetch-emparn.js` tries `fetchHtmlDireto` and, on any failure of it (a non-ok
response makes `fetchHtmlDireto` throw, and a network error also throws; the
`catch` around the call catches both alike), a single proxy URL with an
`http://` inner scheme; a failure of that proxy request again throws either
way and is caught by the candidate loop.

The revised EMPARN script bundled in `fetch-inmet.js` tries `fetchHtmlDireto`,
then `fetchHtmlProxy`, which requests the proxy with an `https://` inner
scheme and then the proxy with an `http://` inner scheme.  The two proxy
attempts are NOT symmetric in their failure handling: `fetchHtmlProxy` only
falls through from the `https://` rewrite to the `http://` rewrite when the
first proxy response arrives with a non-ok status (`if (r1.ok) return
r1.text();` followed by the second request); a thrown network error on that
first proxy request propagates out of `fetchHtmlProxy`, so the `http://`
rewrite is never attempted and the candidate's fetch fails after two
attempts.

A transport therefore maps a URL to a `Resposta`: a successful body, a
response that resolved with a non-ok status code, or a thrown network
failure.  Each composite fetcher returns the list of URLs actually attempted
together with the body obtained — `none` when the whole fetch for that
identifier failed (the candidate loop catches that failure and moves on).
-/

/-- Outcome of one `fetch` call: ok response with body, resolved response
with a non-ok status code, or a rejected promise (network error/timeout). -/
inductive Resposta where
  | ok (corpo : String)
  | status (code : Nat)
  | falhaRede
deriving DecidableEq

/-- Did the response arrive with `res.ok`? -/
def ehOk : Resposta → Bool
  | .ok _ => true
  | _ => false

def urlDireto (id : Int) : String :=
  "https://meteorologia.emparn.rn.gov.br/boletim/diario/" ++ toString id

def urlProxyHttps (id : Int) : String :=
  "https://r.jina.ai/https://meteorologia.emparn.rn.gov.br/boletim/diario/" ++ toString id

def urlProxyHttp (id : Int) : String :=
  "https://r.jina.ai/http://meteorologia.emparn.rn.gov.br/boletim/diario/" ++ toString id

/-- The composite fetch of `fetch-emparn.js` for one identifier: direct
request; on any failure (non-ok status or network error, both thrown and
caught alike) the single proxy rewrite with `http://` inner scheme; any
failure of the proxy request throws, caught by the candidate loop (`none`). -/
def fetchEmparn (transport : String → Resposta) (id : Int) : List String × Option String :=
  match transport (urlDireto id) with
  | .ok corpo => ([urlDireto id], some corpo)
  | _ =>
    match transport (urlProxyHttp id) with
    | .ok corpo => ([urlDireto id, urlProxyHttp id], some corpo)
    | _ => ([urlDireto id, urlProxyHttp id], none)

/-- The composite fetch of the EMPARN variant bundled in `fetch-inmet.js`:
direct request; on any failure of it, the proxy with `https://` inner scheme;
then the proxy with `http://` inner scheme — but only when the `https://`
proxy response resolved with a non-ok status.  A thrown network error on the
`https://` proxy request propagates (the `http://` rewrite is never
attempted), and any failure of the `http://` request likewise ends the
candidate's fetch. -/
def fetchEmparnV2 (transport : String → Resposta) (id : Int) : List String × Option String :=
  match transport (urlDireto id) with
  | .ok corpo => ([urlDireto id], some corpo)
  | _ =>
    match transport (urlProxyHttps id) with
    | .ok corpo => ([urlDireto id, urlProxyHttps id], some corpo)
    | .falhaRede => ([urlDireto id, urlProxyHttps id], none)
    | .status _ =>
      match transport (urlProxyHttp id) with
      | .ok corpo => ([urlDireto id, urlProxyHttps id, urlProxyHttp id], some corpo)
      | _ => ([urlDireto id, urlProxyHttps id, urlProxyHttp id], none)

/-!
Candidate scan (the `for (const id of candidatos)` loop of both EMPARN
scripts).  For each candidate: fetch (direct with proxy fallback — any fetch
failure is caught and the loop moves on), extract the rows, accept the first
candidate with a non-empty extraction.  When every candidate is exhausted the
script throws a fixed error message.
-/

/-- The exact terminal error message thrown after the candidate loop. -/
def msgNenhumCandidato : String :=
  "Não foi possível obter dados do boletim (nenhum candidato retornou linhas)."

/-- The candidate loop: `fetchFn` is the composite fetch for one identifier
(`none` models a thrown/caught failure), `extrair` the HTML row extraction. -/
def buscarBoletim {α : Type} (fetchFn : Int → Option String) (extrair : String → List α) :
    List Int → Except String (Int × List α)
  | [] => .error msgNenhumCandidato
  | id :: resto =>
    match fetchFn id with
    | none => buscarBoletim fetchFn extrair resto
    | some html =>
      let dados := extrair html
      if dados.length > 0 then .ok (id, dados) else buscarBoletim fetchFn extrair resto

/-!
EMPARN bulletin rows (`parseTabela` in both EMPARN scripts).  The cheerio DOM
traversal is external; the model starts from the whitespace-collapsed cell
texts of each body row.  JS array destructuring gives `undefined` for missing
cells (`List.get?`), and `x || null` turns an empty string into `null`.
-/

structure RegistroEMPARN where
  regiao : String
  municipio : Option String
  posto : Option String
  tipo_posto : Option String
  horas : Option String
  precipitacao_mm : Option JSNum
deriving DecidableEq

/-- JS `x || null` on an optional string: `undefined` and `""` become `null`. -/
def ouNulo : Option String → Option String
  | none => none
  | some s => if s = "" then none else some s

/-- One bulletin table row (the cell texts `tds`) to a record. -/
def linhaParaRegistro (regiao : String) (tds : List String) : RegistroEMPARN :=
  { regiao := regiao
    municipio := ouNulo (tds.get? 0)
    posto := ouNulo (tds.get? 1)
    tipo_posto := ouNulo (tds.get? 2)
    horas := ouNulo (tds.get? 3)
    precipitacao_mm := parseNumberBR (tds.get? 4) }

/-- `parseTabela` for one region: rows with zero cells are skipped, the rest
become records. -/
def parseTabela (regiao : String) (linhas : List (List String)) : List RegistroEMPARN :=
  (linhas.filter (fun tds => !tds.isEmpty)).map (linhaParaRegistro regiao)

/-!
INMET station metadata and hourly rows (`fetch-inmet.js`).  Raw API rows are
loosely typed; each alternative field name is a separate optional field
(`none` = absent or JSON `null`, which the script's `||` / `??` chains treat
alike for the fields modelled here).
-/

structure Estacao where
  code : String
  nome : String
  uf : String
  lat : Option JSNum
  lon : Option JSNum
  tipo : String
deriving DecidableEq

structure LinhaAPI where
  CD_ESTACAO : Option String
  CD_WIGOS : Option String
  CD_OMM : Option String
  PRELIQ_TOT : Option JsonPrim
  PRECI_TOT : Option JsonPrim
  CHUVA : Option JsonPrim
  PRECIPITACAO : Option JsonPrim
  PREC : Option JsonPrim
  DC_NOME : Option String
  MUNICIPIO : Option String
  DT_MEDICAO : Option String
  HR_MEDICAO : Option String
deriving DecidableEq

structure RegistroINMET where
  source : String
  regiao : Option String
  municipio : Option String
  posto : String
  tipo_posto : String
  horas : Option String
  precipitacao_mm : Option JSNum
  station_code : String
  lat : Option JSNum
  lon : Option JSNum
deriving DecidableEq

/-- JS `a || b || "" `-style chain over optional strings: the first truthy
(present, non-empty) string, else `""`. -/
def primeiroTruthy : List (Option String) → String
  | [] => ""
  | none :: resto => primeiroTruthy resto
  | some s :: resto => if s = "" then primeiroTruthy resto else s

/-- JS `a || b || null` over optional strings: the first truthy string, else
`null`. -/
def primeiroTruthyOuNulo (l : List (Option String)) : Option String :=
  ouNulo (some (primeiroTruthy l))

/-- `String(r.CD_ESTACAO || r.CD_WIGOS || r.CD_OMM || "").trim()`. -/
def codigoDe (r : LinhaAPI) : String :=
  trimJS (primeiroTruthy [r.CD_ESTACAO, r.CD_WIGOS, r.CD_OMM])

/-- The `??` chain picking the raw precipitation value. -/
def mmDe (r : LinhaAPI) : Option JsonPrim :=
  (((r.PRELIQ_TOT.or r.PRECI_TOT).or r.CHUVA).or r.PRECIPITACAO).or r.PREC

/-- `String(hr).padStart(4, "0")`. -/
def padEsq4 (cs : List Char) : List Char :=
  if cs.length < 4 then List.replicate (4 - cs.length) '0' ++ cs else cs

/-- `replace(/(\d{2})(\d{2})/, "$1:$2")`: insert a colon into the first run of
four consecutive digits. -/
def inserirDoisPontos : List Char → List Char
  | a :: b :: c :: d :: resto =>
    if ehDigito a && ehDigito b && ehDigito c && ehDigito d
    then a :: b :: ':' :: c :: d :: resto
    else a :: inserirDoisPontos (b :: c :: d :: resto)
  | cs => cs

/-- The composed timestamp: both fields truthy gives `"DT HH:MM"`, else the
truthy date alone, else `null`. -/
def timestampDe (r : LinhaAPI) : Option String :=
  match r.DT_MEDICAO, r.HR_MEDICAO with
  | some dt, some hr =>
    if dt != "" && hr != ""
    then some (dt ++ " " ++ String.mk (inserirDoisPontos (padEsq4 hr.data)))
    else ouNulo (some dt)
  | some dt, none => ouNulo (some dt)
  | none, _ => none

/-- The record pushed for an API row `r` joined against station `st`
(`cod = codigoDe r`). -/
def montarRegistro (st : Estacao) (cod : String) (r : LinhaAPI) : RegistroINMET :=
  { source := "INMET"
    regiao := none
    municipio := primeiroTruthyOuNulo [r.DC_NOME, r.MUNICIPIO]
    posto := if st.nome = "" then cod else st.nome
    tipo_posto := if st.tipo = "" then "automática" else st.tipo
    horas := timestampDe r
    precipitacao_mm := numberOrNull (mmDe r)
    station_code := cod
    lat := st.lat
    lon := st.lon }

/-!
JS `Map` with string keys, modelled as an association list in insertion
order: `set` overwrites the value in place for a present key and appends a
fresh key at the end; iteration order is the order of first insertion.
-/

def insereMapa {α : Type} (k : String) (v : α) : List (String × α) → List (String × α)
  | [] => [(k, v)]
  | (k', v') :: resto =>
    if k' = k then (k', v) :: resto else (k', v') :: insereMapa k v resto

/-- `Map.prototype.get`. -/
def procura {α : Type} (k : String) : List (String × α) → Option α
  | [] => none
  | (k', v) :: resto => if k' = k then some v else procura k resto

/-- Build a map by inserting `(key x, x)` for each element in order
(`new Map(xs.map(x => [key(x), x]))`). -/
def construirMapa {α : Type} (key : α → String) (xs : List α) : List (String × α) :=
  xs.foldl (fun m x => insereMapa (key x) x m) []

/-- `Array.from(new Map(out.map(x => [key(x), x])).values())` — the
deduplicator of `fetch-inmet.js`. -/
def uniq {α : Type} (key : α → String) (xs : List α) : List α :=
  (construirMapa key xs).map Prod.snd

/-- The identity key `` `${r.station_code}::${r.horas || ""}::${r.precipitacao_mm ?? ""}` ``.
`fmtNum` stands for the JS number-to-string conversion of the template
literal (an external runtime concern; the dedup properties hold for every
formatting function). -/
def chave (fmtNum : JSNum → String) (r : RegistroINMET) : String :=
  r.station_code ++ "::" ++
    (match r.horas with | some h => h | none => "") ++ "::" ++
    (match r.precipitacao_mm with | some n => fmtNum n | none => "")

/-- The main row loop of `fetch-inmet.js`: resolve the station code, skip the
row when the station map has no entry for it (`if (!st) continue`), otherwise
push the normalized record. -/
def processarLinhas (mapa : List (String × Estacao)) (rows : List LinhaAPI) :
    List RegistroINMET :=
  rows.filterMap (fun r =>
    match procura (codigoDe r) mapa with
    | none => none
    | some st => some (montarRegistro st (codigoDe r) r))

/-!
Station map construction (`stationByCode` in `fetch-inmet.js`), included for
completeness: stations filtered by federative unit, keyed by the first truthy
code spelling, empty codes skipped.
-/

structure LinhaEstacao where
  CD_ESTACAO : Option String
  CD_EST : Option String
  CD_WIGOS : Option String
  CD_OMM : Option String
  CD_SIRED : Option String
  DC_NOME : Option String
  NOME : Option String
  NM_ESTACAO : Option String
  UF : Option String
  DC_UF : Option String
  VL_LATITUDE : Option JsonPrim
  LATITUDE : Option JsonPrim
  LAT : Option JsonPrim
  VL_LONGITUDE : Option JsonPrim
  LONGITUDE : Option JsonPrim
  LON : Option JsonPrim
  TP_ESTACAO : Option String
  TIPO : Option String
deriving DecidableEq

/-- ASCII upper-casing, modelling JS `toUpperCase` on the station data. -/
def maiusculas (s : String) : String :=
  String.mk (s.data.map Char.toUpper)

/-- JS truthiness of a primitive JSON value (`""` and `0` are falsy). -/
def truthyPrim : JsonPrim → Bool
  | .jstr s => s != ""
  | .jnum q => q != 0

/-- JS `a || b` on optional JSON values: `b` unless `a` is present and truthy
(note `a || b` yields `b` itself even when `b` is falsy). -/
def ouTruthy (a b : Option JsonPrim) : Option JsonPrim :=
  match a with
  | none => b
  | some p => if truthyPrim p then some p else b

/-- `stationByCode` built from the UF-filtered station listing. -/
def construirMapaEstacoes (uf : String) (stations : List LinhaEstacao) :
    List (String × Estacao) :=
  let stUF := stations.filter (fun s => maiusculas (primeiroTruthy [s.UF, s.DC_UF]) == uf)
  stUF.foldl (fun m s =>
    let code := trimJS (primeiroTruthy [s.CD_ESTACAO, s.CD_EST, s.CD_WIGOS, s.CD_OMM, s.CD_SIRED])
    if code = "" then m
    else insereMapa code
      { code := code
        nome := primeiroTruthy [s.DC_NOME, s.NOME, s.NM_ESTACAO, some code]
        uf := primeiroTruthy [s.UF, s.DC_UF, some uf]
        lat := numberOrNull (ouTruthy (ouTruthy s.VL_LATITUDE s.LATITUDE) s.LAT)
        lon := numberOrNull (ouTruthy (ouTruthy s.VL_LONGITUDE s.LONGITUDE) s.LON)
        tipo := primeiroTruthy [s.TP_ESTACAO, s.TIPO, some "automática"] : Estacao} m) []

/-!
Specification helpers for the deduplicator, and concrete inputs used by the
witnesses.
-/

/-- `ouEntao a b` is `a` when present, else `b` (first-of-two options). -/
def ouEntao {α : Type} : Option α → Option α → Option α
  | some a, _ => some a
  | none, b => b

/-- The last element of `xs` whose key is `k`. -/
def ultimaComChave {α : Type} (key : α → String) (k : String) (xs : List α) : Option α :=
  (xs.filter (fun x => key x == k)).getLast?

/-- Accumulator version of first-appearance deduplication of a key sequence:
append each key not seen before. -/
def chavesAcc : List String → List String → List String
  | ks, [] => ks
  | ks, k :: resto => chavesAcc (if k ∈ ks then ks else ks ++ [k]) resto

/-- The keys of a sequence in order of first appearance, without repetition. -/
def primeiraAparicao (l : List String) : List String :=
  chavesAcc [] l

/-- A fixed number-formatting function for concrete dedup examples. -/
def fmtTeste : JSNum → String := fun _ => "num"

/-- A transport where only the `http://` inner-scheme proxy URL of id 10965
answers; every other request resolves with status 403. -/
def transpTeste (u : String) : Resposta :=
  if u = urlProxyHttp 10965 then .ok "corpo-proxy-http" else .status 403

/-- A transport where the `https://` inner-scheme proxy request for id 10965
throws a network error, while the `http://` inner-scheme proxy URL would
answer; the direct request resolves with status 403. -/
def transpTesteRede (u : String) : Resposta :=
  if u = urlProxyHttps 10965 then .falhaRede
  else if u = urlProxyHttp 10965 then .ok "corpo-proxy-http"
  else .status 403

def estacaoTeste : Estacao :=
  { code := "A301", nome := "NATAL", uf := "RN", lat := some (JSNum.fin 1)
    lon := some (JSNum.fin (-2)), tipo := "automática" }

/-- An API row whose station code is in the test station map. -/
def linhaTeste : LinhaAPI :=
  { CD_ESTACAO := some "A301", CD_WIGOS := none, CD_OMM := none
    PRELIQ_TOT := some (.jstr "0,2"), PRECI_TOT := none, CHUVA := none
    PRECIPITACAO := none, PREC := none, DC_NOME := some "NATAL", MUNICIPIO := none
    DT_MEDICAO := some "2025-11-03", HR_MEDICAO := some "1200" }

/-- An API row whose station code is not in the test station map. -/
def linhaForaMapa : LinhaAPI :=
  { CD_ESTACAO := some "B999", CD_WIGOS := none, CD_OMM := none
    PRELIQ_TOT := some (.jstr "1,5"), PRECI_TOT := none, CHUVA := none
    PRECIPITACAO := none, PREC := none, DC_NOME := some "MOSSORÓ", MUNICIPIO := none
    DT_MEDICAO := some "2025-11-03", HR_MEDICAO := some "1300" }

def registroTesteA : RegistroINMET :=
  { source := "INMET", regiao := none, municipio := some "X", posto := "P"
    tipo_posto := "automática", horas := some "2025-11-03 12:00"
    precipitacao_mm := some (JSNum.fin 1), station_code := "A301"
    lat := none, lon := none }

/-- Same identity key as `registroTesteA`, different payload. -/
def registroTesteB : RegistroINMET :=
  { registroTesteA with municipio := some "Y" }


/-!
Lemmas about the JS `Map` model.
-/

theorem ouEntao_none {α : Type} (b : Option α) : ouEntao none b = b := rfl

theorem ouEntao_some {α : Type} (a : α) (b : Option α) : ouEntao (some a) b = some a := rfl

theorem getLastOpt_cons {α : Type} (x : α) (l : List α) :
    (x :: l).getLast? = ouEntao l.getLast? (some x) := by
  induction l generalizing x with
  | nil => rfl
  | cons b l ih =>
    rw [List.getLast?_cons_cons, ih b]
    cases h : l.getLast? <;> simp [ouEntao, ih b, h]

theorem insereMapa_chaves {α : Type} (k : String) (v : α) (m : List (String × α)) :
    (insereMapa k v m).map Prod.fst =
      if k ∈ m.map Prod.fst then m.map Prod.fst else m.map Prod.fst ++ [k] := by
  induction m with
  | nil => simp [insereMapa]
  | cons p m ih =>
    obtain ⟨k', v'⟩ := p
    by_cases h : k' = k
    · subst h; simp [insereMapa]
    · simp only [insereMapa, if_neg h, List.map_cons, ih, List.mem_cons]
      by_cases h2 : k ∈ m.map Prod.fst
      · simp [h2, Ne.symm h]
      · simp [h2, Ne.symm h]

theorem insereMapa_procura_mesmo {α : Type} (k : String) (v : α) (m : List (String × α)) :
    procura k (insereMapa k v m) = some v := by
  induction m with
  | nil => simp [insereMapa, procura]
  | cons p m ih =>
    obtain ⟨k', v'⟩ := p
    by_cases h : k' = k <;> simp [insereMapa, procura, h, ih]

theorem insereMapa_procura_outro {α : Type} {k' k : String} (h : k' ≠ k) (v : α)
    (m : List (String × α)) : procura k' (insereMapa k v m) = procura k' m := by
  induction m with
  | nil => simp [insereMapa, procura, Ne.symm h]
  | cons q m ih =>
    obtain ⟨k'', v''⟩ := q
    by_cases hk : k'' = k
    · subst hk
      simp [insereMapa, procura, Ne.symm h]
    · simp [insereMapa, procura, hk, ih]

theorem insereMapa_nodup {α : Type} (k : String) (v : α) {m : List (String × α)}
    (h : (m.map Prod.fst).Nodup) : ((insereMapa k v m).map Prod.fst).Nodup := by
  rw [insereMapa_chaves]
  by_cases hk : k ∈ m.map Prod.fst
  · simpa [hk]
  · simp [hk, List.nodup_append, h]

theorem insereMapa_coerente {α : Type} {key : α → String} {m : List (String × α)}
    (hm : ∀ p ∈ m, p.1 = key p.2) (x : α) :
    ∀ p ∈ insereMapa (key x) x m, p.1 = key p.2 := by
  induction m with
  | nil =>
    intro p hp
    simp only [insereMapa, List.mem_singleton] at hp
    subst hp; rfl
  | cons q m ih =>
    obtain ⟨k', v'⟩ := q
    intro p hp
    by_cases h : k' = key x
    · simp only [insereMapa, if_pos h] at hp
      rcases List.mem_cons.mp hp with h1 | h2
      · subst h1; simpa using h
      · exact hm p (List.mem_cons_of_mem _ h2)
    · simp only [insereMapa, if_neg h] at hp
      rcases List.mem_cons.mp hp with h1 | h2
      · subst h1; exact hm (k', v') (List.mem_cons_self _ _)
      · exact ih (fun q hq => hm q (List.mem_cons_of_mem _ hq)) p h2

theorem insereMapa_length {α : Type} (k : String) (v : α) (m : List (String × α)) :
    (insereMapa k v m).length ≤ m.length + 1 := by
  induction m with
  | nil => simp [insereMapa]
  | cons q m ih =>
    obtain ⟨k', v'⟩ := q
    by_cases h : k' = k
    · simp only [insereMapa, if_pos h, List.length_cons]; omega
    · simp only [insereMapa, if_neg h, List.length_cons]; omega

theorem insereMapa_fresco {α : Type} {k : String} (v : α) {m : List (String × α)}
    (h : k ∉ m.map Prod.fst) : insereMapa k v m = m ++ [(k, v)] := by
  induction m with
  | nil => rfl
  | cons q m ih =>
    obtain ⟨k', v'⟩ := q
    simp only [List.map_cons, List.mem_cons] at h
    push_neg at h
    simp [insereMapa, Ne.symm h.1, ih h.2]

theorem procura_de_mem {α : Type} {m : List (String × α)} (nd : (m.map Prod.fst).Nodup)
    {k : String} {v : α} (hm : (k, v) ∈ m) : procura k m = some v := by
  induction m with
  | nil => cases hm
  | cons p m ih =>
    obtain ⟨k', v'⟩ := p
    simp only [List.map_cons, List.nodup_cons] at nd
    rcases List.mem_cons.mp hm with h1 | h2
    · obtain ⟨hk, hv⟩ := Prod.mk.injEq .. ▸ h1
      simp [procura, hk.symm, hv.symm]
    · have hk : k ∈ m.map Prod.fst := List.mem_map.mpr ⟨(k, v), h2, rfl⟩
      have hne : k' ≠ k := fun he => nd.1 (he ▸ hk)
      simp [procura, hne, ih nd.2 h2]

theorem foldl_insere_procura {α : Type} (key : α → String) (k : String) (xs : List α) :
    ∀ (m : List (String × α)),
      procura k (xs.foldl (fun m x => insereMapa (key x) x m) m) =
        ouEntao (ultimaComChave key k xs) (procura k m) := by
  induction xs with
  | nil => intro m; simp [ultimaComChave, ouEntao, List.foldl_nil]
  | cons x xs ih =>
    intro m
    rw [List.foldl_cons, ih]
    by_cases h : key x = k
    · subst h
      rw [insereMapa_procura_mesmo]
      have hf : ultimaComChave key (key x) (x :: xs) =
          ouEntao (ultimaComChave key (key x) xs) (some x) := by
        simp only [ultimaComChave, List.filter_cons, beq_self_eq_true, if_true]
        exact getLastOpt_cons x _
      rw [hf]
      cases ultimaComChave key (key x) xs <;> simp [ouEntao]
    · have h2 : k ≠ key x := fun hh => h hh.symm
      rw [insereMapa_procura_outro h2]
      have hf : ultimaComChave key k (x :: xs) = ultimaComChave key k xs := by
        simp only [ultimaComChave, List.filter_cons]
        simp [h]
      rw [hf]

theorem foldl_insere_chaves {α : Type} (key : α → String) (xs : List α) :
    ∀ (m : List (String × α)),
      ((xs.foldl (fun m x => insereMapa (key x) x m) m).map Prod.fst) =
        chavesAcc (m.map Prod.fst) (xs.map key) := by
  induction xs with
  | nil => intro m; rfl
  | cons x xs ih =>
    intro m
    rw [List.foldl_cons, ih, List.map_cons]
    show chavesAcc ((insereMapa (key x) x m).map Prod.fst) (xs.map key) =
      chavesAcc (if key x ∈ m.map Prod.fst then m.map Prod.fst else m.map Prod.fst ++ [key x])
        (xs.map key)
    rw [insereMapa_chaves]

theorem foldl_insere_coerente {α : Type} (key : α → String) (xs : List α) :
    ∀ (m : List (String × α)), (∀ p ∈ m, p.1 = key p.2) →
      ∀ p ∈ xs.foldl (fun m x => insereMapa (key x) x m) m, p.1 = key p.2 := by
  induction xs with
  | nil => intro m hm; simpa using hm
  | cons x xs ih =>
    intro m hm
    rw [List.foldl_cons]
    exact ih _ (insereMapa_coerente hm x)

theorem foldl_insere_nodup {α : Type} (key : α → String) (xs : List α) :
    ∀ (m : List (String × α)), (m.map Prod.fst).Nodup →
      ((xs.foldl (fun m x => insereMapa (key x) x m) m).map Prod.fst).Nodup := by
  induction xs with
  | nil => intro m hm; simpa using hm
  | cons x xs ih =>
    intro m hm
    rw [List.foldl_cons]
    exact ih _ (insereMapa_nodup _ _ hm)

theorem foldl_insere_length {α : Type} (key : α → String) (xs : List α) :
    ∀ (m : List (String × α)),
      (xs.foldl (fun m x => insereMapa (key x) x m) m).length ≤ m.length + xs.length := by
  induction xs with
  | nil => intro m; simp
  | cons x xs ih =>
    intro m
    rw [List.foldl_cons]
    have h1 := ih (insereMapa (key x) x m)
    have h2 := insereMapa_length (key x) x m
    simp only [List.length_cons]
    omega

theorem foldl_insere_frescos {α : Type} (key : α → String) (ys : List α) :
    ∀ (m : List (String × α)), (∀ y ∈ ys, key y ∉ m.map Prod.fst) →
      (ys.map key).Nodup →
      ys.foldl (fun m x => insereMapa (key x) x m) m = m ++ ys.map (fun y => (key y, y)) := by
  induction ys with
  | nil => intro m _ _; simp
  | cons y ys ih =>
    intro m hfresh hnd
    simp only [List.map_cons, List.nodup_cons] at hnd
    rw [List.foldl_cons, insereMapa_fresco y (hfresh y (List.mem_cons_self y ys))]
    rw [ih (m ++ [(key y, y)]) ?fresco hnd.2]
    · simp
    case fresco =>
      intro z hz
      simp only [List.map_append, List.mem_append, List.map_cons, List.map_nil,
        List.mem_singleton]
      push_neg
      refine ⟨hfresh z (List.mem_cons_of_mem _ hz), ?_⟩
      intro he
      exact hnd.1 (he ▸ List.mem_map.mpr ⟨z, hz, rfl⟩)

theorem lema_map_chave_snd {α : Type} {key : α → String} {m : List (String × α)}
    (h : ∀ p ∈ m, p.1 = key p.2) : (m.map Prod.snd).map key = m.map Prod.fst := by
  induction m with
  | nil => rfl
  | cons p m ih =>
    simp only [List.map_cons]
    rw [ih (fun q hq => h q (List.mem_cons_of_mem _ hq)),
      ← h p (List.mem_cons_self _ _)]

theorem lema_uniq_chaves {α : Type} (key : α → String) (xs : List α) :
    (uniq key xs).map key = primeiraAparicao (xs.map key) := by
  unfold uniq primeiraAparicao construirMapa
  rw [lema_map_chave_snd (foldl_insere_coerente key xs [] (by simp))]
  simpa using foldl_insere_chaves key xs []

theorem lema_uniq_nodup_chaves {α : Type} (key : α → String) (xs : List α) :
    ((uniq key xs).map key).Nodup := by
  unfold uniq construirMapa
  rw [lema_map_chave_snd (foldl_insere_coerente key xs [] (by simp))]
  exact foldl_insere_nodup key xs [] (by simp)

theorem lema_uniq_fixo {α : Type} (key : α → String) {ys : List α}
    (h : (ys.map key).Nodup) : uniq key ys = ys := by
  unfold uniq construirMapa
  rw [foldl_insere_frescos key ys [] (by simp) h]
  simp only [List.nil_append, List.map_map]
  have hcomp : (Prod.snd ∘ fun y => (key y, y)) = @id α := rfl
  rw [hcomp, List.map_id]

theorem lema_uniq_ultima {α : Type} (key : α → String) (xs : List α) :
    ∀ r ∈ uniq key xs, ultimaComChave key (key r) xs = some r := by
  intro r hr
  obtain ⟨p, hp, hpr⟩ := List.mem_map.mp hr
  have hk : p.1 = key r := by
    rw [← hpr]
    exact foldl_insere_coerente key xs [] (by simp) p hp
  have hpair : (key r, r) ∈ construirMapa key xs := by
    have hpp : p = (key r, r) := by
      obtain ⟨a, b⟩ := p
      simp only at hk hpr
      rw [hk, hpr]
    rwa [hpp] at hp
  have hnd : ((construirMapa key xs).map Prod.fst).Nodup :=
    foldl_insere_nodup key xs [] (by simp)
  have hproc : procura (key r) (construirMapa key xs) = some r := procura_de_mem hnd hpair
  have hfold := foldl_insere_procura key (key r) xs ([] : List (String × α))
  rw [show construirMapa key xs = xs.foldl (fun m x => insereMapa (key x) x m) [] from rfl,
    hfold] at hproc
  cases h : ultimaComChave key (key r) xs with
  | none => rw [h] at hproc; simp [ouEntao, procura] at hproc
  | some s => rw [h] at hproc; simpa [ouEntao] using hproc

/-!
Finiteness of the guarded numeric parsers.
-/

theorem parseNumberBR_fin (s : Option String) :
    parseNumberBR s = none ∨ ∃ q, parseNumberBR s = some (JSNum.fin q) := by
  cases s with
  | none => exact Or.inl rfl
  | some str =>
    by_cases h : str = ""
    · exact Or.inl (by simp [parseNumberBR, h])
    · cases hn : parseFloatJS (trocaBR str) with
      | fin q => exact Or.inr ⟨q, by simp [parseNumberBR, h, hn, ehFinito]⟩
      | nan => exact Or.inl (by simp [parseNumberBR, h, hn, ehFinito])
      | inf => exact Or.inl (by simp [parseNumberBR, h, hn, ehFinito])
      | ninf => exact Or.inl (by simp [parseNumberBR, h, hn, ehFinito])

theorem numberOrNull_fin (v : Option JsonPrim) :
    numberOrNull v = none ∨ ∃ q, numberOrNull v = some (JSNum.fin q) := by
  match v with
  | none => exact Or.inl rfl
  | some (.jnum q) => exact Or.inr ⟨q, rfl⟩
  | some (.jstr str) =>
    by_cases h : str = ""
    · exact Or.inl (by simp [numberOrNull, h])
    · cases hn : jsNumber (String.mk (trocaPrimeiraVirgula str.data)) with
      | fin q => exact Or.inr ⟨q, by simp [numberOrNull, h, hn, ehFinito]⟩
      | nan => exact Or.inl (by simp [numberOrNull, h, hn, ehFinito])
      | inf => exact Or.inl (by simp [numberOrNull, h, hn, ehFinito])
      | ninf => exact Or.inl (by simp [numberOrNull, h, hn, ehFinito])

/-!
Date arithmetic lemmas for the identifier resolver.
-/

theorem diasDesdeCivil_mais_um (y m d : Int) :
    diasDesdeCivil y m (d + 1) = diasDesdeCivil y m d + 1 := by
  simp only [diasDesdeCivil]
  ring

theorem jsRound_mais_um (a : Int) :
    jsRound (a + msPorDia) msPorDia = jsRound a msPorDia + 1 := by
  unfold jsRound msPorDia
  have h : (2 : Int) * (a + 86400000) + 86400000 =
      (2 * a + 86400000) + 1 * (2 * 86400000) := by ring
  rw [h, Int.add_mul_ediv_right _ _ (by norm_num)]

/-!
The ten claims.
-/

/-- Claim C1, counterexample: the claim fails on both scripts at identifier
10965.  In `fetch-emparn.js`, when the direct request fails and the mirror
with `http://` inner scheme succeeds, exactly 2 attempts occur and the mirror
URL with `https://` inner scheme is never attempted at all.  In the variant
bundled in `fetch-inmet.js`, when the direct request fails with a non-ok
status and the mirror-https request throws a network error, the fetch ends
after exactly 2 attempts with no body even though the mirror-http URL would
have succeeded — not 3 attempts returning the mirror-http body. -/
theorem C1_contraexemplo :
    (fetchEmparn transpTeste 10965 =
        ([urlDireto 10965, urlProxyHttp 10965], some "corpo-proxy-http")
      ∧ ((fetchEmparn transpTeste 10965).1.length == 3) = false
      ∧ (fetchEmparn transpTeste 10965).1.contains (urlProxyHttps 10965) = false)
    ∧ (fetchEmparnV2 transpTesteRede 10965 =
        ([urlDireto 10965, urlProxyHttps 10965], none)
      ∧ transpTesteRede (urlProxyHttp 10965) = .ok "corpo-proxy-http"
      ∧ ((fetchEmparnV2 transpTesteRede 10965).1.length == 3) = false) := by
  decide

/-- Claim C1 (amended): the fallback fetch of `fetch-emparn.js` tries two
transport strategies in fixed order — direct, then mirror rewrite with
`http://` inner scheme — and returns the first successful body (2 attempts in
the direct-fails/mirror-http-succeeds scenario).  The variant bundled in
`fetch-inmet.js` tries direct, then mirror with `https://` inner scheme, then
mirror with `http://` inner scheme, returning the first successful body, but
reaches the third strategy only when the mirror-https request resolves with a
non-ok status: in the scenario direct-fails / mirror-https-resolves-non-ok /
mirror-http-succeeds the returned body is the mirror-http body and exactly 3
attempts occur, while a thrown network error on the mirror-https request
propagates and ends the fetch after exactly 2 attempts with no body. -/
theorem C1_teorema (id : Int) (transport : String → Resposta) (c1 : Nat) (corpo : String) :
    (ehOk (transport (urlDireto id)) = false →
      transport (urlProxyHttps id) = .status c1 →
      transport (urlProxyHttp id) = .ok corpo →
      fetchEmparnV2 transport id =
        ([urlDireto id, urlProxyHttps id, urlProxyHttp id], some corpo))
    ∧ (ehOk (transport (urlDireto id)) = false →
      transport (urlProxyHttp id) = .ok corpo →
      fetchEmparn transport id = ([urlDireto id, urlProxyHttp id], some corpo))
    ∧ (ehOk (transport (urlDireto id)) = false →
      transport (urlProxyHttps id) = .falhaRede →
      fetchEmparnV2 transport id = ([urlDireto id, urlProxyHttps id], none)) := by
  refine ⟨?_, ?_, ?_⟩
  · intro h1 h2 h3
    cases hd : transport (urlDireto id) with
    | ok c => rw [hd] at h1; exact absurd h1 (by simp [ehOk])
    | status c => simp [fetchEmparnV2, hd, h2, h3]
    | falhaRede => simp [fetchEmparnV2, hd, h2, h3]
  · intro h1 h3
    cases hd : transport (urlDireto id) with
    | ok c => rw [hd] at h1; exact absurd h1 (by simp [ehOk])
    | status c => simp [fetchEmparn, hd, h3]
    | falhaRede => simp [fetchEmparn, hd, h3]
  · intro h1 h2
    cases hd : transport (urlDireto id) with
    | ok c => rw [hd] at h1; exact absurd h1 (by simp [ehOk])
    | status c => simp [fetchEmparnV2, hd, h2]
    | falhaRede => simp [fetchEmparnV2, hd, h2]

/-- Claim C1, witness: the amended theorem applied to identifier 10965,
once with a transport whose mirror-https request resolves with status 403 and
whose mirror-http request succeeds (3 attempts, mirror-http body; 2 attempts
for the `fetch-emparn.js` fetcher), and once with a transport whose
mirror-https request throws a network error (2 attempts, no body). -/
theorem C1_testemunha :
    fetchEmparnV2 transpTeste 10965 =
      ([urlDireto 10965, urlProxyHttps 10965, urlProxyHttp 10965], some "corpo-proxy-http")
    ∧ fetchEmparn transpTeste 10965 =
      ([urlDireto 10965, urlProxyHttp 10965], some "corpo-proxy-http")
    ∧ fetchEmparnV2 transpTesteRede 10965 = ([urlDireto 10965, urlProxyHttps 10965], none) :=
  ⟨(C1_teorema 10965 transpTeste 403 "corpo-proxy-http").1 (by decide) (by decide) (by decide),
    (C1_teorema 10965 transpTeste 403 "corpo-proxy-http").2.1 (by decide) (by decide),
    (C1_teorema 10965 transpTesteRede 403 "corpo-proxy-http").2.2 (by decide) (by decide)⟩

/-- Claim C2, counterexample: when every candidate is exhausted the run fails
with the fixed message "Não foi possível obter dados do boletim (nenhum
candidato retornou linhas).", which contains no digit at all — so it does not
list the attempted identifiers 10970, 10969, 10971 nor any per-attempt cause. -/
theorem C2_contraexemplo :
    buscarBoletim (fun _ => none) (fun _ => ([] : List Nat)) [10970, 10969, 10971] =
      .error msgNenhumCandidato
    ∧ msgNenhumCandidato.data.all (fun c => !ehDigito c) = true :=
  ⟨rfl, by decide⟩

/-- Claim C2 (amended): when every candidate identifier is exhausted without a
non-empty extraction, the run fails terminally with the fixed generic error
message `msgNenhumCandidato`, which does not list the attempted identifiers or
the per-attempt causes. -/
theorem C2_teorema {α : Type} (fetchFn : Int → Option String) (extrair : String → List α)
    (cands : List Int)
    (h : ∀ id ∈ cands, ∀ html, fetchFn id = some html → extrair html = []) :
    buscarBoletim fetchFn extrair cands = .error msgNenhumCandidato := by
  induction cands with
  | nil => rfl
  | cons id resto ih =>
    have ih2 := ih (fun i hi html hf => h i (List.mem_cons_of_mem _ hi) html hf)
    cases hf : fetchFn id with
    | none =>
      simp only [buscarBoletim, hf]
      exact ih2
    | some html =>
      have he := h id (List.mem_cons_self _ _) html hf
      simp only [buscarBoletim, hf, he, List.length_nil, gt_iff_lt, Nat.lt_irrefl,
        if_false]
      exact ih2

/-- Claim C2, witness: the amended theorem applied to the candidate list
`[10970, 10969, 10971]` with a fetch that succeeds but yields no rows. -/
theorem C2_testemunha :
    buscarBoletim (fun _ => some "<html></html>") (fun _ => ([] : List Nat))
      [10970, 10969, 10971] = .error msgNenhumCandidato :=
  C2_teorema (fun _ => some "<html></html>") (fun _ => ([] : List Nat))
    [10970, 10969, 10971] (fun _ _ _ _ => rfl)

/-- Claim C3: the identifier resolver is monotonic with unit step — for every
civil date `(y, m, d)`, resolving the next day `(y, m, d + 1)` (which is how
JS `Date.UTC` expresses "one day later", normalising month rollover) yields
the identifier of `(y, m, d)` plus one. -/
theorem C3_teorema (y m d : Int) : idDoDia y m (d + 1) = idDoDia y m d + 1 := by
  unfold idDoDia
  rw [diasDesdeCivil_mais_um]
  have h : (diasDesdeCivil y m d + 1) * msPorDia - diasBase * msPorDia =
      (diasDesdeCivil y m d * msPorDia - diasBase * msPorDia) + msPorDia := by ring
  rw [h, jsRound_mais_um]
  ring

/-- Claim C4: `parseNumberBR "1.234,56" = 1234.56` (the rational
`mkRat 123456 100`), `parseNumberBR "" = null`, `parseNumberBR null = null`,
and any input whose preprocessed form does not parse to a finite number yields
`null` rather than an error. -/
theorem C4_teorema :
    parseNumberBR (some "1.234,56") = some (JSNum.fin (mkRat 123456 100))
    ∧ parseNumberBR (some "") = none
    ∧ parseNumberBR none = none
    ∧ ∀ s : String, ehFinito (parseFloatJS (trocaBR s)) = false →
        parseNumberBR (some s) = none := by
  refine ⟨by decide, by decide, rfl, ?_⟩
  intro s h
  by_cases he : s = ""
  · simp [parseNumberBR, he]
  · simp [parseNumberBR, he, h]

/-- Claim C4, witness: the unparsable input "abc" yields `null`. -/
theorem C4_testemunha : parseNumberBR (some "abc") = none :=
  C4_teorema.2.2.2 "abc" (by decide)

/-- Claim C5: for every number-formatting function and every input record
sequence, the deduplicator's output lists the identity keys in order of first
appearance (each exactly once), and every output record is the last input
record carrying its identity key — later records with the same key overwrite
earlier ones. -/
theorem C5_teorema (fmtNum : JSNum → String) (xs : List RegistroINMET) :
    (uniq (chave fmtNum) xs).map (chave fmtNum) = primeiraAparicao (xs.map (chave fmtNum))
    ∧ ∀ r ∈ uniq (chave fmtNum) xs,
        ultimaComChave (chave fmtNum) (chave fmtNum r) xs = some r :=
  ⟨lema_uniq_chaves (chave fmtNum) xs, lema_uniq_ultima (chave fmtNum) xs⟩

/-- Claim C5, witness: for two records sharing an identity key, the surviving
output record is the later one. -/
theorem C5_testemunha :
    ultimaComChave (chave fmtTeste) (chave fmtTeste registroTesteB)
      [registroTesteA, registroTesteB] = some registroTesteB :=
  (C5_teorema fmtTeste [registroTesteA, registroTesteB]).2 registroTesteB (by decide)

/-- Claim C6: for every number-formatting function and every input record
sequence, the deduplicator is idempotent and its output is no longer than its
input. -/
theorem C6_teorema (fmtNum : JSNum → String) (xs : List RegistroINMET) :
    uniq (chave fmtNum) (uniq (chave fmtNum) xs) = uniq (chave fmtNum) xs
    ∧ (uniq (chave fmtNum) xs).length ≤ xs.length := by
  refine ⟨lema_uniq_fixo (chave fmtNum) (lema_uniq_nodup_chaves (chave fmtNum) xs), ?_⟩
  unfold uniq construirMapa
  have h := foldl_insere_length (chave fmtNum) xs []
  simpa using h

/-- Claim C7: every canonical record produced by the EMPARN table
normalization or by the INMET row loop has a `precipitacao_mm` that is either
absent (`null`) or a finite number — never `NaN` or `±Infinity` (and by
construction never a string). -/
theorem C7_teorema :
    (∀ (regiao : String) (linhas : List (List String)),
      ∀ r ∈ parseTabela regiao linhas,
        r.precipitacao_mm = none ∨ ∃ q, r.precipitacao_mm = some (JSNum.fin q))
    ∧ (∀ (mapa : List (String × Estacao)) (rows : List LinhaAPI),
      ∀ r ∈ processarLinhas mapa rows,
        r.precipitacao_mm = none ∨ ∃ q, r.precipitacao_mm = some (JSNum.fin q)) := by
  constructor
  · intro regiao linhas r hr
    obtain ⟨tds, _, hrec⟩ := List.mem_map.mp hr
    rw [← hrec]
    exact parseNumberBR_fin (tds.get? 4)
  · intro mapa rows r hr
    obtain ⟨row, _, hsome⟩ := List.mem_filterMap.mp hr
    cases hp : procura (codigoDe row) mapa with
    | none => simp [hp] at hsome
    | some st =>
      simp only [hp] at hsome
      have hr2 : montarRegistro st (codigoDe row) row = r := Option.some.inj hsome
      rw [← hr2]
      exact numberOrNull_fin (mmDe row)

/-- Claim C7, witness: the theorem applied to one concrete EMPARN row and one
concrete INMET row. -/
theorem C7_testemunha :
    ((linhaParaRegistro "Leste Potiguar"
        ["Natal", "Posto X", "Convencional", "10:00", "12,5"]).precipitacao_mm = none
      ∨ ∃ q, (linhaParaRegistro "Leste Potiguar"
        ["Natal", "Posto X", "Convencional", "10:00", "12,5"]).precipitacao_mm =
          some (JSNum.fin q))
    ∧ ((montarRegistro estacaoTeste "A301" linhaTeste).precipitacao_mm = none
      ∨ ∃ q, (montarRegistro estacaoTeste "A301" linhaTeste).precipitacao_mm =
          some (JSNum.fin q)) :=
  ⟨C7_teorema.1 "Leste Potiguar" [["Natal", "Posto X", "Convencional", "10:00", "12,5"]]
      (linhaParaRegistro "Leste Potiguar" ["Natal", "Posto X", "Convencional", "10:00", "12,5"])
      (by decide),
    C7_teorema.2 [("A301", estacaoTeste)] [linhaTeste]
      (montarRegistro estacaoTeste "A301" linhaTeste) (by decide)⟩

/-- Claim C8: a raw API row whose resolved station code has no entry in the
station reference map contributes nothing to the output — removing it from
the input row sequence leaves the output unchanged. -/
theorem C8_teorema (mapa : List (String × Estacao)) (r : LinhaAPI)
    (rows1 rows2 : List LinhaAPI) (h : procura (codigoDe r) mapa = none) :
    processarLinhas mapa (rows1 ++ r :: rows2) = processarLinhas mapa (rows1 ++ rows2) := by
  unfold processarLinhas
  rw [List.filterMap_append, List.filterMap_append, List.filterMap_cons]
  simp [h]

/-- Claim C8, witness: a row with station code "B999" against a map that only
knows "A301" is dropped entirely. -/
theorem C8_testemunha :
    processarLinhas [("A301", estacaoTeste)] ([] ++ linhaForaMapa :: []) =
      processarLinhas [("A301", estacaoTeste)] ([] ++ []) :=
  C8_teorema [("A301", estacaoTeste)] linhaForaMapa [] [] (by decide)

/-- Claim C9: with the anchor pair (2025-10-29 ↦ 10965), the target date
2025-11-03 resolves to identifier 10970 and the candidate set is exactly
`[10970, 10969, 10971]` in that priority order. -/
theorem C9_teorema :
    idDoDia 2025 11 3 = 10970
    ∧ candidatos (idDoDia 2025 11 3) = [10970, 10969, 10971] := by
  decide

/-- Claim C10: the Brazilian-locale parser deletes every dot before parsing
(the preprocessed text has no dot other than the one replacing the first
comma), so "12.5" — a plain decimal-dot input without comma — parses to the
dot-stripped integer 125 and not to the decimal value 12.5 (`mkRat 125 10`). -/
theorem C10_teorema :
    (∀ s : String, (removePontos s.data).all (fun c => c != '.') = true)
    ∧ parseNumberBR (some "12.5") = some (JSNum.fin 125)
    ∧ ((parseNumberBR (some "12.5") == some (JSNum.fin (mkRat 125 10))) = false) := by
  refine ⟨?_, by decide, by decide⟩
  intro s
  simp only [List.all_eq_true]
  intro c hc
  exact (List.mem_filter.mp hc).2
